import Mathlib

/-!
Verification of the instance lifecycle orchestrator and request router of the
Kokoro TTS proxy (kokoro_proxy.py).  The Python code is shallowly embedded:
pure fragments become Lean functions, the network is an explicit probe oracle
passed as an argument, wall-clock time is an explicit `now` parameter
(seconds since the epoch, as produced by datetime arithmetic), and the
mutable registry is threaded as explicit state.
-/

/-- Outcome of one HTTP probe issued by `requests.get`: either a response with
a status code, or a raised `requests.RequestException` (transport error or
timeout). -/
inductive ProbeResult where
  | ok (statusCode : Nat)
  | exn
deriving DecidableEq

/-- Embedding of the `ColabInstance` object state (kokoro_proxy.py lines
79-121).  `id` and `google_account` are `Option String` because the loader can
assign `None` to them; `created_at` and `last_used_at` are seconds since the
epoch. -/
structure ColabInstance where
  id : Option String
  cloudflare_url : Option String
  created_at : Nat
  last_used_at : Nat
  status : String
  google_account : Option String
deriving DecidableEq

/-- `MAX_INSTANCE_AGE_HOURS = 8` (line 66). -/
def MAX_INSTANCE_AGE_HOURS : ℚ := 8

/-- Python truthiness of the `cloudflare_url` field: `None` and the empty
string are falsy. -/
def urlTruthy : Option String → Bool
  | none => false
  | some s => !(s == "")

/-- `ColabInstance.age_hours` (lines 99-100):
`(datetime.now() - self.created_at).total_seconds() / 3600`. -/
def age_hours (now : Nat) (i : ColabInstance) : ℚ :=
  ((now : ℚ) - (i.created_at : ℚ)) / 3600

/-- `ColabInstance.is_expired` (lines 102-103):
`self.age_hours() > MAX_INSTANCE_AGE_HOURS`. -/
def is_expired (now : Nat) (i : ColabInstance) : Bool :=
  decide (MAX_INSTANCE_AGE_HOURS < age_hours now i)

/-- `ColabInstance.update_last_used` (lines 105-106). -/
def update_last_used (now : Nat) (i : ColabInstance) : ColabInstance :=
  { i with last_used_at := now }

/-- `ColabInstance.is_active` (lines 108-121): returns `False` when the url is
falsy, otherwise issues one GET to `{url}/v1/audio/voices` with a 5 second
timeout and returns `status_code == 200`; any `requests.RequestException`
yields `False`.  The network is the `probe` oracle. -/
def is_active (probe : String → ProbeResult) (i : ColabInstance) : Bool :=
  match i.cloudflare_url with
  | none => false
  | some u =>
    if u == "" then false
    else
      match probe u with
      | .ok c => c == 200
      | .exn => false

/-- Variant of `is_active` whose oracle is indexed by the attempt number: the
code issues exactly one request, so only index 0 is consulted.  Used to state
the no-retry property of the health check. -/
def is_activeN (probeSeq : Nat → String → ProbeResult) (i : ColabInstance) : Bool :=
  match i.cloudflare_url with
  | none => false
  | some u =>
    if u == "" then false
    else
      match probeSeq 0 u with
      | .ok c => c == 200
      | .exn => false

/-- `find_active_instance` (lines 154-160): scans `active_instances` in order,
returns the first instance whose `is_active()` succeeds after updating its
`last_used_at`, and `None` otherwise.  Returns the (possibly updated) registry
as second component. -/
def find_active_instance (probe : String → ProbeResult) (now : Nat) :
    List ColabInstance → Option ColabInstance × List ColabInstance
  | [] => (none, [])
  | i :: rest =>
    if is_active probe i then
      (some (update_last_used now i), update_last_used now i :: rest)
    else
      let r := find_active_instance probe now rest
      (r.1, i :: r.2)

/-- A stored instance in state `"error"`, created at epoch 0, with a healthy
url. -/
def c1BadInstance : ColabInstance :=
  { id := some "bad00001", cloudflare_url := some "https://x.trycloudflare.com",
    created_at := 0, last_used_at := 0, status := "error", google_account := none }

/-- What `find_active_instance` returns for it at `now = 36000` (age 10 h). -/
def c1Returned : ColabInstance :=
  { c1BadInstance with last_used_at := 36000 }

/-- C1: the claim states that `find_active_instance` returns an instance only
if its stored state is `"active"`, its live health check succeeds, and its age
is at most `MAX_INSTANCE_AGE_HOURS`.  This is false at a concrete registry:
with a single stored instance in state `"error"`, aged 10 hours (hence
expired), whose probe succeeds, `find_active_instance` returns that instance
anyway — the code checks only `is_active()`, never the stored status or the
age. -/
theorem C1_counterexample :
    (find_active_instance (fun _ => ProbeResult.ok 200) 36000 [c1BadInstance]).1 =
        some c1Returned
      ∧ c1Returned.status = "error"
      ∧ is_expired 36000 c1Returned = true := by
  refine ⟨rfl, rfl, ?_⟩
  simp only [is_expired, age_hours, c1Returned, c1BadInstance, MAX_INSTANCE_AGE_HOURS,
    decide_eq_true_eq]
  norm_num

/-- C1 (amended): `find_active_instance` returns the first instance in
registry order whose live health check succeeds — regardless of its stored
lifecycle state and of its age — updating that instance's `last_used_at` to
the current time; it returns none exactly when every instance in the registry
fails the live health check. -/
theorem C1_amended (probe : String → ProbeResult) (now : Nat)
    (reg : List ColabInstance) :
    (find_active_instance probe now reg).1 =
        (reg.find? (is_active probe)).map (update_last_used now)
      ∧ ((find_active_instance probe now reg).1 = none ↔
          ∀ i ∈ reg, is_active probe i = false) := by
  have h1 : (find_active_instance probe now reg).1 =
      (reg.find? (is_active probe)).map (update_last_used now) := by
    induction reg with
    | nil => simp [find_active_instance]
    | cons i rest ih =>
      by_cases h : is_active probe i
      · simp [find_active_instance, h, List.find?_cons_of_pos]
      · simp only [Bool.not_eq_true] at h
        simp [find_active_instance, h, List.find?_cons_of_neg, ih]
  refine ⟨h1, ?_⟩
  rw [h1]
  simp [List.find?_eq_none]

/-- C8: the health check `ColabInstance.is_active` issues a single
bounded-timeout probe with no retries (it consults only attempt index 0 of the
probe oracle, and `is_active` is that single-probe check), reports unhealthy
whenever the probe raises a transport error or times out (`.exn`) or returns a
non-success status, and reports healthy only when the probe returns the
success status 200. -/
theorem C8_health_check (i : ColabInstance) :
    (∀ probeSeq : Nat → String → ProbeResult,
        (∀ u, probeSeq 0 u = .exn) → is_activeN probeSeq i = false)
      ∧ (∀ probeSeq : Nat → String → ProbeResult,
          (∀ u c, probeSeq 0 u = .ok c → ¬(200 ≤ c ∧ c ≤ 299)) →
            is_activeN probeSeq i = false)
      ∧ (∀ probeSeq : Nat → String → ProbeResult,
          is_activeN probeSeq i = true →
            ∃ u, i.cloudflare_url = some u ∧ probeSeq 0 u = .ok 200)
      ∧ (∀ p q : Nat → String → ProbeResult,
          (∀ u, p 0 u = q 0 u) → is_activeN p i = is_activeN q i)
      ∧ (∀ probe : String → ProbeResult,
          is_active probe i = is_activeN (fun _ => probe) i) := by
  refine ⟨?_, ?_, ?_, ?_, ?_⟩
  · intro probeSeq h
    unfold is_activeN
    match hurl : i.cloudflare_url with
    | none => rfl
    | some u =>
      by_cases he : u = "" <;> simp [he, h u]
  · intro probeSeq h
    unfold is_activeN
    match hurl : i.cloudflare_url with
    | none => rfl
    | some u =>
      by_cases he : u = ""
      · simp [he]
      · simp only [he, beq_iff_eq, if_neg he]
        match hp : probeSeq 0 u with
        | .exn => rfl
        | .ok c =>
          have hc := h u c hp
          have hne : c ≠ 200 := by
            intro hcc
            exact hc ⟨by omega, by omega⟩
          simp [hne]
  · intro probeSeq h
    unfold is_activeN at h
    match hurl : i.cloudflare_url, h with
    | some u, h =>
      by_cases he : u = ""
      · simp [he] at h
      · simp only [beq_iff_eq, if_neg he] at h
        match hp : probeSeq 0 u, h with
        | .ok c, h =>
          simp only [beq_iff_eq] at h
          exact ⟨u, rfl, by rw [hp, h]⟩
  · intro p q h
    unfold is_activeN
    cases i.cloudflare_url with
    | none => rfl
    | some u =>
      dsimp only
      rw [h u]
  · intro probe
    rfl

/-- Closed instantiation of C8_health_check: a transport error on the single
probe makes the check report unhealthy for a concrete instance with a
non-empty url. -/
theorem C8_health_check_witness :
    is_activeN (fun _ _ => ProbeResult.exn)
      { id := some "w1", cloudflare_url := some "https://w.trycloudflare.com",
        created_at := 0, last_used_at := 0, status := "active",
        google_account := none } = false :=
  (C8_health_check _).1 (fun _ _ => ProbeResult.exn) (fun _ => rfl)

/-- The instance-validation pass of `main` (lines 1046-1056): each reloaded
instance is kept unchanged when `status == "active"` and the live check
succeeds and it is not expired, and otherwise its status is overwritten with
`"inactive"`; every instance is retained in order. -/
def validate_instances (probe : String → ProbeResult) (now : Nat)
    (l : List ColabInstance) : List ColabInstance :=
  l.map (fun i =>
    if i.status == "active" && is_active probe i && !(is_expired now i) then i
    else { i with status := "inactive" })

/-- C6: after the registry is reloaded at process start, the validation pass
sets the state of every reloaded instance that is not recorded as active, or
whose live health check fails, or that is expired, to `"inactive"`, and keeps
every reloaded active, healthy, unexpired instance unchanged (in particular
it keeps its `"active"` state). -/
theorem C6_startup_validation (probe : String → ProbeResult) (now : Nat)
    (l : List ColabInstance) (k : Nat) (i : ColabInstance)
    (hk : l[k]? = some i) :
    (i.status = "active" → is_active probe i = true → is_expired now i = false →
        (validate_instances probe now l)[k]? = some i)
      ∧ (i.status ≠ "active" ∨ is_active probe i = false ∨ is_expired now i = true →
          ∃ j, (validate_instances probe now l)[k]? = some j ∧
            j.status = "inactive" ∧ j.id = i.id ∧
            j.cloudflare_url = i.cloudflare_url ∧ j.created_at = i.created_at ∧
            j.google_account = i.google_account) := by
  have hmap : (validate_instances probe now l)[k]? =
      some (if i.status == "active" && is_active probe i && !(is_expired now i) then i
            else { i with status := "inactive" }) := by
    unfold validate_instances
    rw [List.getElem?_map, hk]
    rfl
  constructor
  · intro h1 h2 h3
    rw [hmap, h1, h2, h3]
    rfl
  · intro h
    have hcond : (i.status == "active" && is_active probe i && !(is_expired now i)) = false := by
      rcases h with h | h | h
      · have : (i.status == "active") = false := by simpa using h
        simp [this]
      · simp [h]
      · simp [h]
    rw [hmap, hcond]
    exact ⟨_, rfl, rfl, rfl, rfl, rfl, rfl⟩

/-- Closed instantiation of C6_startup_validation: a reloaded instance in
state `"error"` is marked `"inactive"` by the startup validation. -/
theorem C6_startup_validation_witness :
    ∃ j, (validate_instances (fun _ => ProbeResult.ok 200) 0 [c1BadInstance])[0]? =
        some j ∧ j.status = "inactive" ∧ j.id = c1BadInstance.id ∧
        j.cloudflare_url = c1BadInstance.cloudflare_url ∧
        j.created_at = c1BadInstance.created_at ∧
        j.google_account = c1BadInstance.google_account :=
  (C6_startup_validation (fun _ => ProbeResult.ok 200) 0 [c1BadInstance] 0
      c1BadInstance rfl).2 (Or.inl (by decide))

/-- Outcome of forwarding one HTTP request with `requests.post`: a response
(status code, content type, body) or a raised `requests.RequestException`
carrying its message. -/
inductive ForwardResult where
  | ok (statusCode : Nat) (contentType : Option String) (body : String)
  | exn (msg : String)
deriving DecidableEq

/-- Python string interpolation of the `cloudflare_url` field: `None`
interpolates as the text `"None"`. -/
def pyStrOfOpt : Option String → String
  | none => "None"
  | some s => s

/-- The url `proxy_speech` posts to (line 978):
`f"{instance.cloudflare_url}/v1/audio/speech"`. -/
def speech_endpoint (i : ColabInstance) : String :=
  pyStrOfOpt i.cloudflare_url ++ "/v1/audio/speech"

/-- The response the Flask route returns to the client: a status code and a
body (for error responses the body is the JSON error message text). -/
structure ProxyResponse where
  statusCode : Nat
  body : String
deriving DecidableEq

/-- `proxy_speech` (lines 958-998) after an instance has been obtained: with
no instance it returns the 500 no-instance error; otherwise it issues exactly
one POST to the instance speech endpoint via the `forward` oracle.  On a
response it updates `last_used_at` and relays status and body; on a
`requests.RequestException` it returns a single 500 JSON error carrying the
exception message, without touching any other instance. -/
def proxy_speech (forward : String → ForwardResult) (now : Nat)
    (inst : Option ColabInstance) : ProxyResponse × Option ColabInstance :=
  match inst with
  | none =>
    ({ statusCode := 500,
       body := "No active TTS instance available and failed to create a new one" },
     none)
  | some i =>
    match forward (speech_endpoint i) with
    | .ok st _ body => ({ statusCode := st, body := body }, some (update_last_used now i))
    | .exn msg =>
      ({ statusCode := 500, body := "Error communicating with TTS service: " ++ msg },
       some i)

/-- C9: if a transport failure occurs while forwarding a synthesis request to
the chosen instance, `proxy_speech` responds to the client with a single
server-error response (HTTP 500 — the code's service-unavailable error)
whose body carries the failure reason, and it never retries the request:
the response depends only on the forward oracle's value at the chosen
instance's endpoint, so no other instance and no second attempt is ever
consulted. -/
theorem C9_forward_failure (now : Nat) (i : ColabInstance) :
    (∀ forward : String → ForwardResult, ∀ msg,
        forward (speech_endpoint i) = .exn msg →
          (proxy_speech forward now (some i)).1 =
            { statusCode := 500,
              body := "Error communicating with TTS service: " ++ msg })
      ∧ (∀ f g : String → ForwardResult,
          f (speech_endpoint i) = g (speech_endpoint i) →
            proxy_speech f now (some i) = proxy_speech g now (some i)) := by
  constructor
  · intro forward msg h
    unfold proxy_speech
    dsimp only
    rw [h]
  · intro f g h
    unfold proxy_speech
    dsimp only
    rw [h]

/-- Closed instantiation of C9_forward_failure: a concrete timed-out forward
yields the 500 error carrying the reason. -/
theorem C9_forward_failure_witness :
    (proxy_speech (fun _ => ForwardResult.exn "Read timed out.") 7 (some c1Returned)).1 =
      { statusCode := 500,
        body := "Error communicating with TTS service: " ++ "Read timed out." } :=
  (C9_forward_failure 7 c1Returned).1 (fun _ => ForwardResult.exn "Read timed out.")
    "Read timed out." rfl

/-- A configured Google account entry from `config.GOOGLE_ACCOUNTS`: a dict
with `name`, `email` and `password` keys. -/
structure GoogleAccount where
  name : String
  email : String
  password : String
deriving DecidableEq

/-- The account chosen for a failover retry (lines 541-544 and 613-616):
`next_accounts = [acc for acc in config.GOOGLE_ACCOUNTS if acc['email'] !=
current_email]` and the retry uses `next_accounts[0]`. -/
def failover_next (accounts : List GoogleAccount) (current : GoogleAccount) :
    Option GoogleAccount :=
  (accounts.filter (fun acc => acc.email != current.email)).head?

/-- Account lookup by the `google_account_name` argument of
`launch_colab_automated` (lines 474-479): the first configured account whose
name or email equals the given string. -/
def resolve_account (accounts : List GoogleAccount) (nm : String) :
    Option GoogleAccount :=
  accounts.find? (fun acc => acc.name == nm || acc.email == nm)

/-- One failover step of `launch_colab_automated` on `ResourceExhausted`: the
retry is invoked with `next_accounts[0]['name']`, which the recursive call
resolves back to an account. -/
def next_attempt (accounts : List GoogleAccount) (current : GoogleAccount) :
    Option GoogleAccount :=
  match failover_next accounts current with
  | none => none
  | some nxt => resolve_account accounts nxt.name

/-- The credential used by the n-th provisioning attempt when every attempt
reports `ResourceExhausted` (each step recurses via `next_attempt`; if no
further account exists the current one is kept, which cannot happen for the
lists considered here). -/
def attemptSeq (accounts : List GoogleAccount) (first : GoogleAccount) : Nat → GoogleAccount
  | 0 => first
  | n + 1 => (next_attempt accounts (attemptSeq accounts first n)).getD (attemptSeq accounts first n)

/-- Credential A of the scenario in the claim. -/
def accA : GoogleAccount := { name := "A", email := "a@example.com", password := "pa" }

/-- Credential B of the scenario in the claim. -/
def accB : GoogleAccount := { name := "B", email := "b@example.com", password := "pb" }

/-- Credential C of the scenario in the claim. -/
def accC : GoogleAccount := { name := "C", email := "c@example.com", password := "pc" }

/-- C2: the claim states that with configured credentials [A, B, C] and
current credential A reporting resource exhaustion the next attempt uses B,
that when B also reports exhaustion the next uses C, and that A is never
retried.  This is false on the code: the retry always picks the first
configured account whose email differs from the current one, so after A and
then B report exhaustion the third attempt uses A again — C is never reached
and A is retried, so the failover also does not stop after one pass over the
credential list. -/
theorem C2_counterexample :
    next_attempt [accA, accB, accC] accA = some accB
      ∧ next_attempt [accA, accB, accC] accB = some accA
      ∧ attemptSeq [accA, accB, accC] accA 2 = accA
      ∧ accA ≠ accC := by
  refine ⟨rfl, rfl, rfl, ?_⟩
  decide

/-- C2 (amended): during repeated `ResourceExhausted` failover, the retry
always uses the first configured credential whose email differs from the
current one (the code excludes only the credential just tried, not all
previously tried ones).  Hence with credentials [A, B, ...] whose names
resolve uniquely, the attempt sequence alternates A, B, A, B, ... — the even
attempts retry A and the odd attempts retry B, so later credentials such as C
are never reached, A is retried, and the failover does not terminate after
one pass over the credential list. -/
theorem C2_amended (accounts : List GoogleAccount) (a0 a1 : GoogleAccount)
    (rest : List GoogleAccount) (hacc : accounts = a0 :: a1 :: rest)
    (hne : a1.email ≠ a0.email)
    (hres : ∀ a ∈ accounts, resolve_account accounts a.name = some a) :
    ∀ n, attemptSeq accounts a0 (2 * n) = a0
      ∧ attemptSeq accounts a0 (2 * n + 1) = a1 := by
  have ha0mem : a0 ∈ accounts := by
    rw [hacc]
    exact List.mem_cons_self _ _
  have ha1mem : a1 ∈ accounts := by
    rw [hacc]
    exact List.mem_cons_of_mem _ (List.mem_cons_self _ _)
  have step1 : next_attempt accounts a0 = some a1 := by
    have hfo : failover_next accounts a0 = some a1 := by
      rw [hacc]
      unfold failover_next
      simp [List.filter_cons, hne]
    unfold next_attempt
    rw [hfo]
    exact hres a1 ha1mem
  have step2 : next_attempt accounts a1 = some a0 := by
    have hne0 : a0.email ≠ a1.email := fun hh => hne hh.symm
    have hfo : failover_next accounts a1 = some a0 := by
      rw [hacc]
      unfold failover_next
      simp [List.filter_cons, hne0]
    unfold next_attempt
    rw [hfo]
    exact hres a0 ha0mem
  intro n
  induction n with
  | zero =>
    refine ⟨rfl, ?_⟩
    show (next_attempt accounts a0).getD a0 = a1
    rw [step1]
    rfl
  | succ n ih =>
    obtain ⟨ih0, ih1⟩ := ih
    have h2 : 2 * (n + 1) = (2 * n + 1) + 1 := by ring
    have e0 : attemptSeq accounts a0 (2 * (n + 1)) = a0 := by
      rw [h2]
      show (next_attempt accounts (attemptSeq accounts a0 (2 * n + 1))).getD
          (attemptSeq accounts a0 (2 * n + 1)) = a0
      rw [ih1, step2]
      rfl
    refine ⟨e0, ?_⟩
    show (next_attempt accounts (attemptSeq accounts a0 (2 * (n + 1)))).getD
        (attemptSeq accounts a0 (2 * (n + 1))) = a1
    rw [e0, step1]
    rfl

/-- Closed instantiation of C2_amended at credentials [A, B, C]: the third
attempt (index 2) retries A and the fourth retries B. -/
theorem C2_amended_witness :
    attemptSeq [accA, accB, accC] accA (2 * 1) = accA
      ∧ attemptSeq [accA, accB, accC] accA (2 * 1 + 1) = accB :=
  C2_amended [accA, accB, accC] accA accB [accC] rfl (by decide) (by decide) 1

/-- Abstract state of the single-flight launch gate (lines 442-448, 531-538,
604-610, 637-639, 708-710, 735-736): the boolean `is_launching` flag guarded
by `launch_lock`, plus how many callers are before the gate (`idleN`), inside
the gated provisioning body (`bodyN`), and past it (`doneN`).  Callers are
anonymous, so the thread pool is tracked by counts. -/
structure LaunchGateState where
  idleN : Nat
  bodyN : Nat
  doneN : Nat
  is_launching : Bool
deriving DecidableEq

/-- Atomic transitions of the gate protocol.  `enterGranted` is the
lock-protected test-and-set at lines 444-448 when the flag is clear;
`enterDenied` is the same section returning `None` when the flag is set;
`exitBody` is any of the lock-protected releases (`is_launching = False`);
`newCall` is the arrival of a fresh caller (including the failover recursion
after a release). -/
inductive LaunchStep : LaunchGateState → LaunchGateState → Prop
  | enterGranted (s : LaunchGateState) (h : 0 < s.idleN) (hl : s.is_launching = false) :
      LaunchStep s { idleN := s.idleN - 1, bodyN := s.bodyN + 1,
                     doneN := s.doneN, is_launching := true }
  | enterDenied (s : LaunchGateState) (h : 0 < s.idleN) (hl : s.is_launching = true) :
      LaunchStep s { s with idleN := s.idleN - 1, doneN := s.doneN + 1 }
  | exitBody (s : LaunchGateState) (h : 0 < s.bodyN) :
      LaunchStep s { idleN := s.idleN, bodyN := s.bodyN - 1,
                     doneN := s.doneN + 1, is_launching := false }
  | newCall (s : LaunchGateState) :
      LaunchStep s { s with idleN := s.idleN + 1 }

/-- States reachable from a start state with no launch in flight. -/
inductive LaunchReachable : LaunchGateState → Prop
  | init (n : Nat) :
      LaunchReachable { idleN := n, bodyN := 0, doneN := 0, is_launching := false }
  | step (s t : LaunchGateState) :
      LaunchReachable s → LaunchStep s t → LaunchReachable t

/-- C4: under any interleaving of concurrent callers, at most one caller is
ever inside the gated provisioning body of `launch_colab_automated` — the
lock-protected test-and-set of `is_launching` makes every caller that finds
an attempt already in flight return without starting a second concurrent
attempt.  Moreover the flag is only clear when nobody is inside the body. -/
theorem C4_single_flight (s : LaunchGateState) (hr : LaunchReachable s) :
    s.bodyN ≤ 1 ∧ (s.is_launching = false → s.bodyN = 0) := by
  induction hr with
  | init n => exact ⟨Nat.zero_le 1, fun _ => rfl⟩
  | step s t hs hst ih =>
    obtain ⟨ih1, ih2⟩ := ih
    cases hst with
    | enterGranted h hl =>
      have h0 : s.bodyN = 0 := ih2 hl
      refine ⟨?_, ?_⟩
      · show s.bodyN + 1 ≤ 1
        omega
      · intro hfalse
        simp at hfalse
    | enterDenied h hl =>
      exact ⟨ih1, ih2⟩
    | exitBody h =>
      refine ⟨?_, fun _ => ?_⟩
      · show s.bodyN - 1 ≤ 1
        omega
      · show s.bodyN - 1 = 0
        omega
    | newCall =>
      exact ⟨ih1, ih2⟩

/-- Closed instantiation of C4_single_flight: a state with one caller inside
the gated body, reached from two concurrent callers, has at most one caller
inside the body. -/
theorem C4_single_flight_witness :
    LaunchReachable { idleN := 1, bodyN := 1, doneN := 0, is_launching := true }
      ∧ ({ idleN := 1, bodyN := 1, doneN := 0,
           is_launching := true } : LaunchGateState).bodyN ≤ 1 := by
  have hr : LaunchReachable { idleN := 1, bodyN := 1, doneN := 0, is_launching := true } := by
    have h0 : LaunchReachable { idleN := 2, bodyN := 0, doneN := 0, is_launching := false } :=
      LaunchReachable.init 2
    exact LaunchReachable.step _ _ h0
      (LaunchStep.enterGranted { idleN := 2, bodyN := 0, doneN := 0, is_launching := false }
        (by decide) rfl)
  exact ⟨hr, (C4_single_flight _ hr).1⟩

/-- The `ColabInstance.__init__` constructor (lines 79-86): a fresh id, both
timestamps at creation time, no account, and
`status = "initializing" if not cloudflare_url else "active"`. -/
def mkColabInstance (freshId : String) (now : Nat) (url : Option String) :
    ColabInstance :=
  { id := some freshId, cloudflare_url := url, created_at := now,
    last_used_at := now,
    status := if urlTruthy url then "active" else "initializing",
    google_account := none }

/-- The success path of `launch_colab_automated` (lines 699-703): the
extracted cloudflare url is stored and the status set to `"active"` at the
same point; the surrounding `if cloudflare_url:` guarantees the url is
non-empty. -/
def set_active_url (i : ColabInstance) (url : String) : ColabInstance :=
  { i with cloudflare_url := some url, status := "active" }

/-- `instance.status = "error"` (lines 536, 608, 634, 728). -/
def mark_error (i : ColabInstance) : ColabInstance :=
  { i with status := "error" }

/-- `instance.status = "inactive"` (lines 751, 782, 1053). -/
def mark_inactive (i : ColabInstance) : ColabInstance :=
  { i with status := "inactive" }

/-- `instance.google_account = account['name']` (line 489). -/
def set_google_account (i : ColabInstance) (nm : String) : ColabInstance :=
  { i with google_account := some nm }

/-- Instance states reachable through the operations the code performs on an
instance after creation.  The boolean ghost index records whether the
instance has ever been activated (created with a truthy endpoint, or had its
endpoint stored by the success path). -/
inductive InstanceReachable : Bool → ColabInstance → Prop
  | create (freshId : String) (now : Nat) (url : Option String) :
      InstanceReachable (urlTruthy url) (mkColabInstance freshId now url)
  | activate (ever : Bool) (i : ColabInstance) (url : String)
      (hr : InstanceReachable ever i) (hu : url ≠ "") :
      InstanceReachable true (set_active_url i url)
  | markError (ever : Bool) (i : ColabInstance) (hr : InstanceReachable ever i) :
      InstanceReachable ever (mark_error i)
  | markInactive (ever : Bool) (i : ColabInstance) (hr : InstanceReachable ever i) :
      InstanceReachable ever (mark_inactive i)
  | touch (ever : Bool) (i : ColabInstance) (now : Nat)
      (hr : InstanceReachable ever i) :
      InstanceReachable ever (update_last_used now i)
  | setAccount (ever : Bool) (i : ColabInstance) (nm : String)
      (hr : InstanceReachable ever i) :
      InstanceReachable ever (set_google_account i nm)

/-- The property claimed by C7, stated over all reachable instance states:
the endpoint is non-empty exactly when the state is `"active"`, or the
instance was activated and has not yet been marked `"inactive"` or
`"error"`. -/
def C7ClaimStatement : Prop :=
  ∀ (ever : Bool) (i : ColabInstance), InstanceReachable ever i →
    (urlTruthy i.cloudflare_url = true ↔
      (i.status = "active" ∨
        (ever = true ∧ i.status ≠ "inactive" ∧ i.status ≠ "error")))

/-- C7: the claimed biconditional is false on the code: an instance that was
activated and is later marked `"inactive"` (as the keep-alive loop and the
startup validation do) keeps its non-empty endpoint, while the right-hand
side of the biconditional is false for it. -/
theorem C7_counterexample : ¬C7ClaimStatement := by
  intro h
  have hr : InstanceReachable true
      (mark_inactive (set_active_url (mkColabInstance "x1" 0 none)
        "https://y.trycloudflare.com")) :=
    InstanceReachable.markInactive _ _
      (InstanceReachable.activate _ _ _ (InstanceReachable.create "x1" 0 none)
        (by decide))
  have hiff := h _ _ hr
  have hurl : urlTruthy (mark_inactive (set_active_url (mkColabInstance "x1" 0 none)
      "https://y.trycloudflare.com")).cloudflare_url = true := rfl
  have := hiff.mp hurl
  rcases this with hact | ⟨_, hnin, _⟩
  · exact absurd hact (by decide)
  · exact hnin rfl

/-- C7 (amended): over all reachable instance states, the endpoint is truthy
(non-empty) exactly when the instance has ever been activated; an instance is
created in `"initializing"` state exactly when it has no endpoint (so no
operation produces an initializing instance with an endpoint), the endpoint
is set at the same point the state becomes `"active"`, and every `"active"`
instance has a truthy endpoint — but instances marked `"inactive"` or
`"error"` after activation retain their endpoint. -/
theorem C7_amended (ever : Bool) (i : ColabInstance)
    (hr : InstanceReachable ever i) :
    urlTruthy i.cloudflare_url = ever
      ∧ (i.status = "initializing" → urlTruthy i.cloudflare_url = false)
      ∧ (i.status = "active" → urlTruthy i.cloudflare_url = true) := by
  induction hr with
  | create freshId now url =>
    refine ⟨rfl, ?_, ?_⟩
    · intro hst
      by_cases hu : urlTruthy url = true
      · exfalso
        unfold mkColabInstance at hst
        rw [if_pos hu] at hst
        simp at hst
      · simpa using hu
    · intro hst
      by_cases hu : urlTruthy url = true
      · exact hu
      · exfalso
        unfold mkColabInstance at hst
        rw [if_neg hu] at hst
        simp at hst
  | activate ever i url hr hu ih =>
    refine ⟨?_, ?_, ?_⟩
    · show urlTruthy (some url) = true
      simp [urlTruthy, hu]
    · intro hst
      simp [set_active_url] at hst
    · intro _
      show urlTruthy (some url) = true
      simp [urlTruthy, hu]
  | markError ever i hr ih =>
    obtain ⟨ih1, _, _⟩ := ih
    refine ⟨ih1, ?_, ?_⟩
    · intro hst
      simp [mark_error] at hst
    · intro hst
      simp [mark_error] at hst
  | markInactive ever i hr ih =>
    obtain ⟨ih1, _, _⟩ := ih
    refine ⟨ih1, ?_, ?_⟩
    · intro hst
      simp [mark_inactive] at hst
    · intro hst
      simp [mark_inactive] at hst
  | touch ever i now hr ih =>
    exact ih
  | setAccount ever i nm hr ih =>
    exact ih

/-- Closed instantiation of C7_amended: a freshly created instance with no
endpoint is in `"initializing"` state and has no endpoint; after activation
the endpoint is truthy. -/
theorem C7_amended_witness :
    InstanceReachable false (mkColabInstance "w7" 5 none)
      ∧ urlTruthy (mkColabInstance "w7" 5 none).cloudflare_url = false
      ∧ InstanceReachable true (set_active_url (mkColabInstance "w7" 5 none)
          "https://z.trycloudflare.com")
      ∧ urlTruthy (set_active_url (mkColabInstance "w7" 5 none)
          "https://z.trycloudflare.com").cloudflare_url = true := by
  have h0 : InstanceReachable false (mkColabInstance "w7" 5 none) :=
    InstanceReachable.create "w7" 5 none
  have h1 : InstanceReachable true (set_active_url (mkColabInstance "w7" 5 none)
      "https://z.trycloudflare.com") :=
    InstanceReachable.activate _ _ _ h0 (by decide)
  exact ⟨h0, (C7_amended _ _ h0).1, h1, (C7_amended _ _ h1).1⟩

/-- The index-search loop of `select_google_account` (lines 178-183):
`current_index = -1; for i, account in enumerate(available_accounts): if
account['email'] == currently_used_account['email']: current_index = i;
break` — the first index whose email matches, or none. -/
def findAccountIdx (email : String) : List GoogleAccount → Option Nat
  | [] => none
  | a :: rest =>
    if a.email == email then some 0
    else (findAccountIdx email rest).map (· + 1)

/-- `select_google_account` (lines 162-195): the global cursor
`currently_used_account` is threaded explicitly.  Returns the selected
account (or none) and the new cursor.  An empty list returns none and leaves
the cursor unchanged; a clear cursor selects the first account; otherwise the
account after the cursor email's first index is selected, wrapping to the
first account when that email is absent or was last; the cursor is set to the
selection. -/
def select_google_account (avail : List GoogleAccount)
    (cursor : Option GoogleAccount) :
    Option GoogleAccount × Option GoogleAccount :=
  match avail with
  | [] => (none, cursor)
  | a0 :: rest =>
    match cursor with
    | none => (some a0, some a0)
    | some cur =>
      let selected :=
        match findAccountIdx cur.email (a0 :: rest) with
        | some idx =>
          if idx + 1 < (a0 :: rest).length then (a0 :: rest).getD (idx + 1) a0
          else a0
        | none => a0
      (some selected, some selected)

/-- The sequence of accounts produced by `n` consecutive calls of
`select_google_account`, starting from a given cursor and threading the
updated cursor through. -/
def rotorRun (avail : List GoogleAccount) :
    Option GoogleAccount → Nat → List GoogleAccount
  | _, 0 => []
  | cursor, n + 1 =>
    match select_google_account avail cursor with
    | (some a, c2) => a :: rotorRun avail c2 n
    | (none, _) => []

/-- The default account used only to state positions via `List.getD`. -/
def accDflt : GoogleAccount := { name := "", email := "", password := "" }

theorem findAccountIdx_lt (e : String) :
    ∀ (l : List GoogleAccount) (i : Nat), findAccountIdx e l = some i →
      i < l.length := by
  intro l
  induction l with
  | nil => intro i h; simp [findAccountIdx] at h
  | cons a rest ih =>
    intro i h
    unfold findAccountIdx at h
    by_cases hc : (a.email == e) = true
    · rw [if_pos hc] at h
      simp at h
      rw [List.length_cons]
      omega
    · rw [if_neg hc] at h
      match hrec : findAccountIdx e rest with
      | none => rw [hrec] at h; simp at h
      | some j =>
        rw [hrec] at h
        simp at h
        have := ih j hrec
        rw [List.length_cons]
        omega

theorem findAccountIdx_getD (l : List GoogleAccount)
    (hnd : (l.map GoogleAccount.email).Nodup) :
    ∀ (j : Nat), j < l.length → ∀ d : GoogleAccount,
      findAccountIdx (l.getD j d).email l = some j := by
  induction l with
  | nil =>
    intro j hj
    simp at hj
  | cons a rest ih =>
    intro j hj d
    match j with
    | 0 =>
      show findAccountIdx a.email (a :: rest) = some 0
      unfold findAccountIdx
      simp
    | j + 1 =>
      have hj' : j < rest.length := by
        simp [List.length_cons] at hj
        omega
      have hgd : (a :: rest).getD (j + 1) d = rest.getD j d := rfl
      rw [hgd]
      have hmem : rest.getD j d ∈ rest := by
        rw [List.getD_eq_getElem rest d hj']
        exact List.getElem_mem hj'
      have hne : (a.email == (rest.getD j d).email) = false := by
        have hnotmem : a.email ∉ rest.map GoogleAccount.email := by
          rw [List.map_cons] at hnd
          exact (List.nodup_cons.mp hnd).1
        have : (rest.getD j d).email ∈ rest.map GoogleAccount.email :=
          List.mem_map_of_mem _ hmem
        by_contra hb
        simp only [Bool.not_eq_false, beq_iff_eq] at hb
        rw [hb] at hnotmem
        exact hnotmem this
      unfold findAccountIdx
      rw [hne]
      have hrest : (rest.map GoogleAccount.email).Nodup := by
        rw [List.map_cons] at hnd
        exact (List.nodup_cons.mp hnd).2
      rw [ih hrest j hj' d]
      rfl

theorem select_char (avail : List GoogleAccount) (cur : GoogleAccount) (j : Nat)
    (hf : findAccountIdx cur.email avail = some j) (d : GoogleAccount) :
    select_google_account avail (some cur) =
      (some (avail.getD ((j + 1) % avail.length) d),
       some (avail.getD ((j + 1) % avail.length) d)) := by
  cases avail with
  | nil => simp [findAccountIdx] at hf
  | cons a0 rest =>
    have hj : j < (a0 :: rest).length := findAccountIdx_lt _ _ _ hf
    unfold select_google_account
    dsimp only
    simp only [hf]
    by_cases hlt : j + 1 < (a0 :: rest).length
    · rw [if_pos hlt]
      have hmod : (j + 1) % (a0 :: rest).length = j + 1 := Nat.mod_eq_of_lt hlt
      rw [hmod, List.getD_eq_getElem _ a0 hlt, List.getD_eq_getElem _ d hlt]
    · rw [if_neg hlt]
      have hmod : (j + 1) % (a0 :: rest).length = 0 := by
        have he : j + 1 = (a0 :: rest).length := by
          rw [List.length_cons] at hj hlt ⊢
          omega
        rw [he, Nat.mod_self]
      rw [hmod]
      rfl

theorem rotorRun_succ (avail : List GoogleAccount) (cursor : Option GoogleAccount)
    (n : Nat) :
    rotorRun avail cursor (n + 1) =
      match select_google_account avail cursor with
      | (some a, c2) => a :: rotorRun avail c2 n
      | (none, _) => [] := rfl

theorem rotorRun_char (avail : List GoogleAccount)
    (hnd : (avail.map GoogleAccount.email).Nodup) :
    ∀ (n : Nat) (cur : GoogleAccount) (j : Nat),
      findAccountIdx cur.email avail = some j →
      rotorRun avail (some cur) n =
        (List.range n).map
          (fun k => avail.getD ((j + 1 + k) % avail.length) accDflt) := by
  intro n
  induction n with
  | zero =>
    intro cur j hf
    rfl
  | succ n ih =>
    intro cur j hf
    have hj : j < avail.length := findAccountIdx_lt _ _ _ hf
    have hpos : 0 < avail.length := by omega
    have hsel := select_char avail cur j hf accDflt
    have hj' : (j + 1) % avail.length < avail.length := Nat.mod_lt _ hpos
    have hf' : findAccountIdx
        (avail.getD ((j + 1) % avail.length) accDflt).email avail =
          some ((j + 1) % avail.length) :=
      findAccountIdx_getD avail hnd _ hj' accDflt
    have hstep : rotorRun avail (some cur) (n + 1) =
        avail.getD ((j + 1) % avail.length) accDflt ::
          rotorRun avail (some (avail.getD ((j + 1) % avail.length) accDflt)) n := by
      rw [rotorRun_succ, hsel]
    rw [hstep, ih _ _ hf', List.range_succ_eq_map, List.map_cons, List.map_map]
    congr 1
    congr 1
    funext k
    show avail.getD (((j + 1) % avail.length + 1 + k) % avail.length) accDflt =
        avail.getD ((j + 1 + (k + 1)) % avail.length) accDflt
    congr 1
    have e1 : (j + 1) % avail.length + 1 + k = (j + 1) % avail.length + (1 + k) := by
      omega
    rw [e1, Nat.mod_add_mod]
    have e2 : j + 1 + (1 + k) = j + 1 + (k + 1) := by omega
    rw [e2]

theorem rotorRun_found_perm (avail : List GoogleAccount)
    (hnd : (avail.map GoogleAccount.email).Nodup) (cur : GoogleAccount) (j : Nat)
    (hf : findAccountIdx cur.email avail = some j) :
    (rotorRun avail (some cur) avail.length).Perm avail := by
  have hj : j < avail.length := findAccountIdx_lt _ _ _ hf
  have hpos : 0 < avail.length := by omega
  have heq : rotorRun avail (some cur) avail.length =
      avail.rotate ((j + 1) % avail.length) := by
    rw [rotorRun_char avail hnd avail.length cur j hf]
    apply List.ext_getElem
    · simp [List.length_rotate]
    · intro k h1 h2
      simp only [List.getElem_map, List.getElem_range]
      rw [List.getElem_rotate]
      rw [List.getD_eq_getElem _ _ (Nat.mod_lt _ hpos)]
      congr 1
      rw [Nat.add_mod_mod]
      have e : j + 1 + k = k + (j + 1) := by omega
      rw [e]
  rw [heq]
  exact List.rotate_perm _ _

theorem rotorRun_restart (a0 : GoogleAccount) (rest : List GoogleAccount)
    (cursor : Option GoogleAccount)
    (hcase : cursor = none ∨
      ∃ cur, cursor = some cur ∧ findAccountIdx cur.email (a0 :: rest) = none)
    (n : Nat) :
    rotorRun (a0 :: rest) cursor (n + 1) =
      a0 :: rotorRun (a0 :: rest) (some a0) n := by
  rcases hcase with h | ⟨cur, hc, hf⟩
  · subst h
    rfl
  · subst hc
    have hsel : select_google_account (a0 :: rest) (some cur) = (some a0, some a0) := by
      unfold select_google_account
      dsimp only
      simp only [hf]
    rw [rotorRun_succ, hsel]

theorem getD_congr_idx (l : List GoogleAccount) (d : GoogleAccount)
    (i j : Nat) (h : i = j) : l.getD i d = l.getD j d := by
  rw [h]

theorem rotorRun_from_head (a0 : GoogleAccount) (rest : List GoogleAccount)
    (hnd : ((a0 :: rest).map GoogleAccount.email).Nodup) :
    a0 :: rotorRun (a0 :: rest) (some a0) rest.length = a0 :: rest := by
  have hf0 : findAccountIdx a0.email (a0 :: rest) = some 0 := by
    unfold findAccountIdx
    simp
  rw [rotorRun_char (a0 :: rest) hnd rest.length a0 0 hf0]
  congr 1
  apply List.ext_getElem
  · simp
  · intro k h1 h2
    simp only [List.getElem_map, List.getElem_range]
    have hk : k < rest.length := by simpa using h1
    have hlt : 0 + 1 + k < (a0 :: rest).length := by
      rw [List.length_cons]
      omega
    rw [Nat.mod_eq_of_lt hlt]
    have e : (0 : Nat) + 1 + k = k + 1 := by omega
    rw [getD_congr_idx (a0 :: rest) accDflt _ _ e]
    have hstep : (a0 :: rest).getD (k + 1) accDflt = rest.getD k accDflt := rfl
    rw [hstep, List.getD_eq_getElem rest accDflt hk]

/-- C3: `select_google_account` is a round-robin selection.  For an empty
credential list it returns none and leaves the cursor unchanged; with no
prior selection it returns the first credential; otherwise it returns the
credential immediately after the first index of the cursor's email in list
order, wrapping to the first credential when that email is absent from the
list or indexes the last element; on every non-none return the cursor is
advanced to the returned credential; and (for distinct credential emails) N
consecutive calls over a list of length N produce each credential exactly
once — a round-robin sequence of period N — regardless of the starting
cursor value. -/
theorem C3_rotator :
    (∀ cursor, select_google_account [] cursor = (none, cursor))
      ∧ (∀ (a0 : GoogleAccount) (rest : List GoogleAccount),
          select_google_account (a0 :: rest) none = (some a0, some a0))
      ∧ (∀ (avail : List GoogleAccount) (cur : GoogleAccount) (j : Nat)
            (d : GoogleAccount),
          findAccountIdx cur.email avail = some j → j + 1 < avail.length →
            select_google_account avail (some cur) =
              (some (avail.getD (j + 1) d), some (avail.getD (j + 1) d)))
      ∧ (∀ (a0 : GoogleAccount) (rest : List GoogleAccount) (cur : GoogleAccount)
            (j : Nat),
          findAccountIdx cur.email (a0 :: rest) = some j →
            ¬(j + 1 < (a0 :: rest).length) →
            select_google_account (a0 :: rest) (some cur) = (some a0, some a0))
      ∧ (∀ (a0 : GoogleAccount) (rest : List GoogleAccount) (cur : GoogleAccount),
          findAccountIdx cur.email (a0 :: rest) = none →
            select_google_account (a0 :: rest) (some cur) = (some a0, some a0))
      ∧ (∀ (a0 : GoogleAccount) (rest : List GoogleAccount)
            (cursor : Option GoogleAccount),
          (select_google_account (a0 :: rest) cursor).2 =
            (select_google_account (a0 :: rest) cursor).1)
      ∧ (∀ (avail : List GoogleAccount) (cursor : Option GoogleAccount),
          (avail.map GoogleAccount.email).Nodup → avail ≠ [] →
            (rotorRun avail cursor avail.length).Perm avail) := by
  refine ⟨?_, ?_, ?_, ?_, ?_, ?_, ?_⟩
  · intro cursor
    rfl
  · intro a0 rest
    rfl
  · intro avail cur j d hf hlt
    have hc := select_char avail cur j hf d
    rw [Nat.mod_eq_of_lt hlt] at hc
    exact hc
  · intro a0 rest cur j hf hnlt
    have hj : j < (a0 :: rest).length := findAccountIdx_lt _ _ _ hf
    have hc := select_char (a0 :: rest) cur j hf a0
    have he : j + 1 = (a0 :: rest).length := by omega
    rw [he, Nat.mod_self] at hc
    exact hc
  · intro a0 rest cur hf
    unfold select_google_account
    dsimp only
    simp only [hf]
  · intro a0 rest cursor
    cases cursor <;> rfl
  · intro avail cursor hnd hne
    match avail, hne with
    | a0 :: rest, _ =>
      cases cursor with
      | none =>
        rw [List.length_cons, rotorRun_restart a0 rest none (Or.inl rfl) rest.length,
          rotorRun_from_head a0 rest hnd]
      | some cur =>
        match hf : findAccountIdx cur.email (a0 :: rest) with
        | some j =>
          exact rotorRun_found_perm _ hnd cur j hf
        | none =>
          rw [List.length_cons,
            rotorRun_restart a0 rest (some cur) (Or.inr ⟨cur, rfl, hf⟩) rest.length,
            rotorRun_from_head a0 rest hnd]

/-- Closed instantiation of C3_rotator: the empty list leaves the cursor
unchanged, a clear cursor selects the first of two credentials, and two
consecutive calls over a distinct two-credential list starting from the
second credential yield a permutation of the list. -/
theorem C3_rotator_witness :
    select_google_account [] (some accA) = (none, some accA)
      ∧ select_google_account [accA, accB] none = (some accA, some accA)
      ∧ (rotorRun [accA, accB] (some accB) [accA, accB].length).Perm [accA, accB] :=
  ⟨C3_rotator.1 (some accA), C3_rotator.2.1 accA [accB],
    C3_rotator.2.2.2.2.2.2 [accA, accB] (some accB) (by decide) (by decide)⟩

/-- A decoded JSON value as produced by `json.load` and consumed by
`json.dump` (the dump/load pair on the file is the identity on this value).
Numbers are rationals. -/
inductive JVal where
  | jnull
  | jbool (b : Bool)
  | jnum (q : ℚ)
  | jstr (s : String)
  | jarr (items : List JVal)
  | jobj (fields : List (String × JVal))

/-- The Python exception classes relevant to `load_history`. -/
inductive PyExn where
  | jsonDecodeError
  | keyError
  | valueError
  | typeError
  | attributeError
deriving DecidableEq

/-- The on-disk history file: absent, present with text `json.load` rejects
(raising `json.JSONDecodeError`), or present with a decoded JSON value. -/
inductive HistoryFile where
  | absent
  | invalid
  | valid (v : JVal)

/-- `dict.get(key, default)` on a decoded JSON object. -/
def jgetD (fields : List (String × JVal)) (key : String) (dflt : JVal) : JVal :=
  match fields.find? (fun kv => kv.1 == key) with
  | some kv => kv.2
  | none => dflt

/-- `dict.get(key)` — default `None`. -/
def jget (fields : List (String × JVal)) (key : String) : JVal :=
  jgetD fields key JVal.jnull

/-- `datetime.fromisoformat` applied to a JSON value: a string is parsed by
the stdlib parser — modelled by the `parseIso` oracle, with `none` standing
for a malformed string, which raises `ValueError`; any non-string argument
(in particular `None` from a missing key) raises `TypeError`. -/
def fromisoformat (parseIso : String → Option Nat) : JVal → Except PyExn Nat
  | JVal.jstr s =>
    match parseIso s with
    | some t => Except.ok t
    | none => Except.error PyExn.valueError
  | _ => Except.error PyExn.typeError

/-- A JSON value assigned to an `Option String` typed instance field: `null`
is `None`, a string is itself.  Python would store any other value unchanged;
such values never arise from `save_history` and none of the claims observes
them, so they collapse to `none`. -/
def jvalToOptStr : JVal → Option String
  | JVal.jnull => none
  | JVal.jstr s => some s
  | _ => none

/-- A JSON value assigned to the `status` field, which the embedding types as
`String`; `null` (and any non-string) collapses to `""`, which compares
unequal to every status literal exactly as Python `None` does. -/
def jvalToStr : JVal → String
  | JVal.jstr s => s
  | _ => ""

/-- An `Option String` field written by `to_dict`: `None` dumps as `null`. -/
def optStrToJVal : Option String → JVal
  | none => JVal.jnull
  | some s => JVal.jstr s

/-- Python iteration over the value of `data.get("instances", [])` (line
132): lists iterate their items, strings iterate their characters (as
one-character strings), dicts iterate their keys; `None`, booleans and
numbers are not iterable and raise `TypeError`. -/
def iterElems : JVal → Except PyExn (List JVal)
  | JVal.jarr l => Except.ok l
  | JVal.jstr s => Except.ok (s.toList.map (fun c => JVal.jstr (String.mk [c])))
  | JVal.jobj fields => Except.ok (fields.map (fun kv => JVal.jstr kv.1))
  | _ => Except.error PyExn.typeError

/-- The per-record body of the `load_history` loop (lines 133-139):
`ColabInstance(instance_data.get("cloudflare_url"))` followed by the field
assignments.  `.get` on a non-dict raises `AttributeError`; the two
`fromisoformat` calls can raise `ValueError` or `TypeError`, in source
order (`created_at` before `last_used_at`). -/
def loadInstanceRecord (parseIso : String → Option Nat) (v : JVal) :
    Except PyExn ColabInstance :=
  match v with
  | JVal.jobj fields => do
    let ca ← fromisoformat parseIso (jget fields "created_at")
    let lu ← fromisoformat parseIso (jget fields "last_used_at")
    Except.ok
      { id := jvalToOptStr (jget fields "id"),
        cloudflare_url := jvalToOptStr (jget fields "cloudflare_url"),
        created_at := ca, last_used_at := lu,
        status := jvalToStr (jget fields "status"),
        google_account := jvalToOptStr (jget fields "google_account") }
  | _ => Except.error PyExn.attributeError

/-- The record loop of `load_history`: each element is converted in order and
appended; the first exception aborts the whole loop. -/
def loadRecords (parseIso : String → Option Nat) :
    List JVal → Except PyExn (List ColabInstance)
  | [] => Except.ok []
  | v :: rest => do
    let i ← loadInstanceRecord parseIso v
    let is ← loadRecords parseIso rest
    Except.ok (i :: is)

/-- The body of the `try` block of `load_history` after `json.load`
succeeded: `data.get("instances", [])` (AttributeError on a non-dict `data`)
and the record loop. -/
def load_history_body (parseIso : String → Option Nat) (v : JVal) :
    Except PyExn (List ColabInstance) := do
  let items ←
    match v with
    | JVal.jobj fields => iterElems (jgetD fields "instances" (JVal.jarr []))
    | _ => Except.error PyExn.attributeError
  loadRecords parseIso items

/-- `load_history` (lines 123-145): returns `[]` when the file is absent;
otherwise runs `json.load` and the record loop inside a
`try/except (json.JSONDecodeError, KeyError, ValueError)` handler that
returns `[]`; exceptions outside those classes (TypeError, AttributeError)
propagate to the caller. -/
def load_history (parseIso : String → Option Nat) (file : HistoryFile) :
    Except PyExn (List ColabInstance) :=
  match file with
  | HistoryFile.absent => Except.ok []
  | HistoryFile.invalid => Except.ok []
  | HistoryFile.valid v =>
    match load_history_body parseIso v with
    | Except.ok l => Except.ok l
    | Except.error PyExn.jsonDecodeError => Except.ok []
    | Except.error PyExn.keyError => Except.ok []
    | Except.error PyExn.valueError => Except.ok []
    | Except.error e => Except.error e

/-- `ColabInstance.to_dict` (lines 88-97); the timestamps are serialized with
`datetime.isoformat`, modelled by the `enc` oracle. -/
def to_dict (enc : Nat → String) (now : Nat) (i : ColabInstance) : JVal :=
  JVal.jobj
    [("id", optStrToJVal i.id),
     ("cloudflare_url", optStrToJVal i.cloudflare_url),
     ("created_at", JVal.jstr (enc i.created_at)),
     ("last_used_at", JVal.jstr (enc i.last_used_at)),
     ("status", JVal.jstr i.status),
     ("age_hours", JVal.jnum (age_hours now i)),
     ("google_account", optStrToJVal i.google_account)]

/-- `save_history` (lines 147-152): the JSON value written to the file. -/
def save_history (enc : Nat → String) (now : Nat) (l : List ColabInstance) :
    JVal :=
  JVal.jobj [("instances", JVal.jarr (l.map (to_dict enc now)))]

theorem loadInstanceRecord_to_dict (enc : Nat → String) (dec : String → Option Nat)
    (hcodec : ∀ t, dec (enc t) = some t) (now : Nat) (i : ColabInstance) :
    loadInstanceRecord dec (to_dict enc now i) = Except.ok i := by
  unfold to_dict loadInstanceRecord
  simp [jget, jgetD, List.find?, fromisoformat]
  rw [hcodec i.created_at, hcodec i.last_used_at]
  cases i with
  | mk id url ca lu st acc =>
    cases id <;> cases url <;> cases acc <;> rfl

/-- C5: for every list of instances, saving the registry with `save_history`
and reloading it with `load_history` reproduces the same sequence of
instances — in particular the same sequence of ids, endpoints
(`cloudflare_url`), lifecycle states, credential identifiers
(`google_account`) and timestamps.  The `datetime.isoformat` /
`datetime.fromisoformat` stdlib codec is modelled by the oracle pair
`(enc, dec)` with its round-trip property as hypothesis. -/
theorem C5_roundtrip (enc : Nat → String) (dec : String → Option Nat)
    (hcodec : ∀ t, dec (enc t) = some t) (now : Nat) (l : List ColabInstance) :
    load_history dec (HistoryFile.valid (save_history enc now l)) =
      Except.ok l := by
  have hrecords : loadRecords dec (l.map (to_dict enc now)) = Except.ok l := by
    induction l with
    | nil => rfl
    | cons i t ih =>
      show (do
          let x ← loadInstanceRecord dec (to_dict enc now i)
          let xs ← loadRecords dec (t.map (to_dict enc now))
          Except.ok (x :: xs)) = Except.ok (i :: t)
      rw [loadInstanceRecord_to_dict enc dec hcodec now i]
      show (do
          let xs ← loadRecords dec (t.map (to_dict enc now))
          Except.ok (i :: xs)) = Except.ok (i :: t)
      rw [ih]
      rfl
  have hbody : load_history_body dec (save_history enc now l) =
      Except.ok l := by
    show (do
        let items ← iterElems
          (jgetD [("instances", JVal.jarr (l.map (to_dict enc now)))] "instances"
            (JVal.jarr []))
        loadRecords dec items) = Except.ok l
    have hget : jgetD [("instances", JVal.jarr (l.map (to_dict enc now)))]
        "instances" (JVal.jarr []) = JVal.jarr (l.map (to_dict enc now)) := by
      simp [jgetD, List.find?]
    rw [hget]
    show loadRecords dec (l.map (to_dict enc now)) = Except.ok l
    exact hrecords
  show (match load_history_body dec (save_history enc now l) with
        | Except.ok l => Except.ok l
        | Except.error PyExn.jsonDecodeError => Except.ok []
        | Except.error PyExn.keyError => Except.ok []
        | Except.error PyExn.valueError => Except.ok []
        | Except.error e => Except.error e) = Except.ok l
  rw [hbody]

/-- Closed instantiation of C5_roundtrip with a concrete injective timestamp
codec (unary encoding) and a concrete one-instance registry. -/
theorem C5_roundtrip_witness :
    load_history (fun s => some s.length)
        (HistoryFile.valid
          (save_history (fun n => String.mk (List.replicate n 'a')) 9
            [c1BadInstance])) =
      Except.ok [c1BadInstance] := by
  have hcodec : ∀ t : Nat,
      (fun s => some s.length) ((fun n => String.mk (List.replicate n 'a')) t) =
        some t := by
    intro t
    show some (String.mk (List.replicate t 'a')).length = some t
    simp [String.length]
  exact C5_roundtrip (fun n => String.mk (List.replicate n 'a'))
    (fun s => some s.length) hcodec 9 [c1BadInstance]

/-- A syntactically valid JSON history file with one record that has no
`created_at` key: `{"instances": [{}]}`. -/
def c10File : HistoryFile :=
  HistoryFile.valid (JVal.jobj [("instances", JVal.jarr [JVal.jobj []])])

/-- C10: the claim states that `load_history` is total over all
persisted-file contents, returning `[]` instead of propagating any
exception.  This is false: on the well-formed JSON file
`{"instances": [{}]}` the record loop calls
`datetime.fromisoformat(instance_data.get("created_at"))` with `None`, which
raises `TypeError` — an exception class the `except` clause does not catch —
so `load_history` propagates an exception instead of returning a list. -/
theorem C10_counterexample :
    load_history (fun _ => none) c10File = Except.error PyExn.typeError := rfl

/-- C10 (amended): `load_history` returns `[]` when the history file is
absent or its text fails JSON decoding, and the exception classes named in
its handler — `json.JSONDecodeError`, `KeyError`, `ValueError` (malformed
timestamp strings) — never escape it; but exceptions outside those classes
(`TypeError` from a missing or non-string timestamp field, `AttributeError`
from non-object data or records) propagate, so `load_history` is not total
over all persisted-file contents. -/
theorem C10_amended (parseIso : String → Option Nat) (file : HistoryFile) :
    load_history parseIso HistoryFile.absent = Except.ok []
      ∧ load_history parseIso HistoryFile.invalid = Except.ok []
      ∧ (∀ e, load_history parseIso file = Except.error e →
          e = PyExn.typeError ∨ e = PyExn.attributeError) := by
  refine ⟨rfl, rfl, ?_⟩
  intro e he
  cases file with
  | absent => simp [load_history] at he
  | invalid => simp [load_history] at he
  | valid v =>
    have he2 : (match load_history_body parseIso v with
        | Except.ok l => Except.ok l
        | Except.error PyExn.jsonDecodeError => Except.ok ([] : List ColabInstance)
        | Except.error PyExn.keyError => Except.ok []
        | Except.error PyExn.valueError => Except.ok []
        | Except.error e2 => Except.error e2) = Except.error e := he
    clear he
    cases hb : load_history_body parseIso v with
    | ok l =>
      rw [hb] at he2
      simp at he2
    | error e2 =>
      rw [hb] at he2
      cases e2 with
      | jsonDecodeError => simp at he2
      | keyError => simp at he2
      | valueError => simp at he2
      | typeError =>
        simp at he2
        exact Or.inl he2.symm
      | attributeError =>
        simp at he2
        exact Or.inr he2.symm

/-- Closed instantiation of C1_amended at a one-instance registry whose probe
fails: the result is none and the find? characterization holds. -/
theorem C1_amended_witness :
    (find_active_instance (fun _ => ProbeResult.exn) 5 [c1BadInstance]).1 =
        (([c1BadInstance].find? (is_active (fun _ => ProbeResult.exn))).map
          (update_last_used 5))
      ∧ ((find_active_instance (fun _ => ProbeResult.exn) 5 [c1BadInstance]).1 =
            none ↔
          ∀ i ∈ [c1BadInstance], is_active (fun _ => ProbeResult.exn) i = false) :=
  C1_amended (fun _ => ProbeResult.exn) 5 [c1BadInstance]

/-- Closed instantiation of C10_amended: an absent file loads as the empty
list, and the exception the counterexample file raises is one of the
uncaught classes. -/
theorem C10_amended_witness :
    load_history (fun _ => none) HistoryFile.absent = Except.ok []
      ∧ (PyExn.typeError = PyExn.typeError ∨
          PyExn.typeError = PyExn.attributeError) :=
  ⟨(C10_amended (fun _ => none) c10File).1,
   (C10_amended (fun _ => none) c10File).2.2 PyExn.typeError rfl⟩
